import Mathlib

/-!
A shallow embedding of the user-registration application: the Mongo-backed
user model with its submit and select-by-email operations, and the web
layer with registration-form validation, bcrypt password handling, the
confirmation-token service and the login flow.  External collaborators
such as pymongo, flask_bcrypt, itsdangerous and the wtforms validators are
modelled by explicit Lean functions following their documented behaviour;
everything else is translated directly from the two source files.
-/

/-- A document-store value: the records of this application only ever hold
strings and booleans. -/
inductive Value where
  | str (s : String)
  | bool (b : Bool)
deriving DecidableEq, Repr

/-- A stored document: an ordered association list of field name and value,
mirroring a Python dict's insertion order. -/
abbrev Doc := List (String × Value)

/-- Read a string field of a document, the total model of indexing into a
well-formed document produced by this application. -/
def getStr (d : Doc) (k : String) : String :=
  match d.lookup k with
  | some (Value.str s) => s
  | _ => ""

/-- Read a boolean field of a document. -/
def getBool (d : Doc) (k : String) : Bool :=
  match d.lookup k with
  | some (Value.bool b) => b
  | _ => false

/-- The email field of a stored document, the key of the unique index. -/
def docEmail (d : Doc) : Option Value := d.lookup "email"

/-- Whether a stored document matches the query seed on the email field,
as built at line 139 of the user-model source. -/
def docHasEmail (d : Doc) (email : String) : Bool :=
  decide (docEmail d = some (Value.str email))

/-- The query projection of line 140 of the user-model source: the
store-generated id field is excluded from every returned document. -/
def applyProjection (d : Doc) : Doc :=
  d.filter (fun kv => kv.1 != "_id")

/-- Model of the cursor helper at lines 16 to 24 of the user-model source:
it normalises a creation-timestamp field to an ISO string.  No record
produced by this application carries that field, and the value type here
has no datetime, so on every document of this model the per-document
transformation leaves the document unchanged. -/
def _cursor_helper (l : List Doc) : List Doc := l.map (fun cur => cur)

/-- The user entity of the user-model source, lines 33 to 59, without the
database handle, which is a connection object irrelevant to the data. -/
structure UserModel where
  email : String
  password : String
  is_authenticated : Bool
  is_anonymous : Bool
  is_active : Bool
  details : Doc
deriving DecidableEq, Repr

/-- The flattening of a user to a record, lines 77 to 89 of the user-model
source: the instance attributes minus the database handle, with the
details mapping flattened into the record, in dict insertion order. -/
def _to_dict (u : UserModel) : Doc :=
  [("email", Value.str u.email),
   ("password", Value.str u.password),
   ("is_authenticated", Value.bool u.is_authenticated),
   ("is_anonymous", Value.bool u.is_anonymous),
   ("is_active", Value.bool u.is_active)] ++ u.details

/-- Rebuilding a user from a stored document, line 149 of the user-model
source: email, password and the authentication flag bind to the named
constructor parameters, every other field lands in the details kwargs,
and the constructor sets the anonymous and active flags to constants. -/
def userFromDoc (d : Doc) : UserModel :=
  { email := getStr d "email"
    password := getStr d "password"
    is_authenticated := getBool d "is_authenticated"
    is_anonymous := false
    is_active := true
    details := d.filter (fun kv =>
      !(kv.1 == "email" || kv.1 == "password" || kv.1 == "is_authenticated")) }

/-- The return object of the external mongo-return module, as used by this
code: success, count, code, message, and the documents slot that the
select operation fills with the rebuilt user. -/
structure MongoReturn where
  success : Bool
  count : Nat
  code : Option Nat
  message : Option String
  documents : Option UserModel
deriving DecidableEq, Repr

/-- The one piece of in-process global state: the class attribute
recording index creation, line 31 of the user-model source. -/
structure Globals where
  created_index : Bool
deriving DecidableEq, Repr

/-- The external document store: the user collection's documents in
insertion order, whether the unique email index exists, and a counter
standing in for object-id generation. -/
structure StoreState where
  docs : List Doc
  indexCreated : Bool
  nextId : Nat
deriving DecidableEq, Repr

/-- Modelled from the spec: this constant is defined in the configuration
module, which is not among the provided source files.  The spec describes
it as the hardcoded store error code for a duplicate-key constraint
violation, and the insert test in the user-model source asserts it equals
the code carried by the store's duplicate-key error; the document store's
duplicate-key error code is 11000. -/
def EXISTING_EMAIL_CODE_ERR : Nat := 11000

/-- Result of one submit call: the class-level globals after the call, the
store after the call, the returned object, and whether this call invoked
index creation on the store. -/
structure SubmitResult where
  globals : Globals
  store : StoreState
  ret : MongoReturn
  calledCreateIndex : Bool
deriving DecidableEq, Repr

/-- The submit operation, lines 91 to 122 of the user-model source: when
the class flag is unset it creates the unique email index, then attempts
the insert; a duplicate email under the unique index raises the store's
duplicate-key error, caught and returned with its code; note that the
class flag is never assigned, so the globals pass through unchanged. -/
def submit (g : Globals) (st : StoreState) (u : UserModel) : SubmitResult :=
  let st1 := if g.created_index then st else { st with indexCreated := true }
  let doc := _to_dict u ++ [("_id", Value.str (toString st1.nextId))]
  if st1.indexCreated && st1.docs.any (fun d => docHasEmail d u.email) then
    { globals := g
      store := st1
      ret := { success := false, count := 0, code := some EXISTING_EMAIL_CODE_ERR,
               message := some "E11000 duplicate key error collection", documents := none }
      calledCreateIndex := !g.created_index }
  else
    { globals := g
      store := { st1 with docs := st1.docs ++ [doc], nextId := st1.nextId + 1 }
      ret := { success := true, count := 1, code := none,
               message := some "Document inserted successfully", documents := none }
      calledCreateIndex := !g.created_index }

/-- The list of documents produced by the find call with the email seed
and the id-excluding projection, then passed through the cursor helper,
lines 139 to 145 of the user-model source. -/
def foundDocs (st : StoreState) (email : String) : List Doc :=
  _cursor_helper ((st.docs.filter (fun d => docHasEmail d email)).map applyProjection)

/-- The assertion at line 146 of the user-model source: the result list
has length one or zero. -/
def select_assertion (st : StoreState) (email : String) : Bool :=
  decide ((foundDocs st email).length = 1 ∨ (foundDocs st email).length = 0)

/-- The select operation, lines 124 to 157 of the user-model source: find
the matching documents, and when any exist rebuild a user from the first
and mark it authenticated. -/
def select_by_email (st : StoreState) (email : String) : MongoReturn :=
  match foundDocs st email with
  | [] => { success := true, count := 0, code := none, message := none, documents := none }
  | d :: rest =>
    { success := true
      count := (d :: rest).length
      code := none
      message := none
      documents := some { userFromDoc d with is_authenticated := true } }

/-- Model of the bcrypt digest of the external bcrypt library: a
deterministic stand-in with the bcrypt prefix on the output, so a digest
is never equal to the plaintext it digests. -/
def bcryptDigest (p : String) : String := "$2b$12$" ++ p

/-- Model of the external bcrypt password-hash generator.  In the target
language version it returns a bytes object, not a text string. -/
def generate_password_hash (p : String) : String := bcryptDigest p

/-- The text conversion the register handler applies to the hash at line
100 of the web source: converting a bytes object to text via str yields
its printable representation, the content wrapped in a b-prefixed pair of
quote characters, code point 39. -/
def pyStr (bytesVal : String) : String :=
  "b" ++ String.singleton (Char.ofNat 39) ++ bytesVal ++ String.singleton (Char.ofNat 39)

/-- Model of the external bcrypt hash check: true exactly when the first
argument is the digest of the second. -/
def check_password_hash (h : String) (p : String) : Bool := h == bcryptDigest p

/-- Model of the external email-format validator: the minimal well-formed
shape this model distinguishes is the presence of an at sign. -/
def validEmail (e : String) : Bool := e.data.contains '@'

/-- The declarative validator chain of the registration form, lines 39 to
54 of the web source: data-required, email format and length six to forty
on the email field, data-required and length six to twenty-five on the
password field, data-required and equality with password on the
confirmation field. -/
def initialValidation (email password confirm : String) : Bool :=
  (!(email == "")) && validEmail email &&
  decide (6 ≤ email.length) && decide (email.length ≤ 40) &&
  (!(password == "")) &&
  decide (6 ≤ password.length) && decide (password.length ≤ 25) &&
  (!(confirm == "")) && (confirm == password)

/-- The custom validate method of the registration form, lines 56 to 67 of
the web source: run the declarative validators, then look the email up in
the store; only when the lookup reports failure is its code compared with
the duplicate-email code and the field error appended.  The returned pair
is the boolean outcome and the messages appended to the email field. -/
def formValidate (st : StoreState) (email password confirm : String) :
    Bool × List String :=
  if !(initialValidation email password confirm) then (false, [])
  else
    let result := select_by_email st email
    if !result.success then
      if result.code == some EXISTING_EMAIL_CODE_ERR then
        (false, ["Email already registered"])
      else (false, [])
    else (true, [])

/-- Outcome of the register handler as seen by the client. -/
inductive RegOutcome where
  | redirectHome
  | rerenderForm (emailErrors : List String)
deriving DecidableEq, Repr

/-- Result of one register request: globals and store afterwards, and the
client-visible outcome. -/
structure RegisterResult where
  globals : Globals
  store : StoreState
  outcome : RegOutcome
deriving DecidableEq, Repr

/-- The register handler, lines 94 to 114 of the web source: on a valid
form it hashes the password, converts the hash to text, builds the user
with the confirmed detail set to false, submits it, and redirects home
with a success flash; the return value of submit at line 106 is
discarded, so the redirect happens whether or not the insert succeeded. -/
def registerFlow (g : Globals) (st : StoreState) (email password confirm : String) :
    RegisterResult :=
  let v := formValidate st email password confirm
  if v.1 then
    let hashed := pyStr (generate_password_hash password)
    let user : UserModel :=
      { email := email, password := hashed, is_authenticated := false,
        is_anonymous := false, is_active := true,
        details := [("confirmed", Value.bool false)] }
    let r := submit g st user
    { globals := r.globals, store := r.store, outcome := RegOutcome.redirectHome }
  else
    { globals := g, store := st, outcome := RegOutcome.rerenderForm v.2 }

/-- The flash message of the login handler at line 133 of the web source. -/
def invalidCredMsg : String := "Invalid email and/or password."

/-- Outcome of the login handler as seen by the client: a redirect home on
success, a re-render of the login page with the danger flash, or a
re-render of the login page with no flash at all. -/
inductive LoginOutcome where
  | redirectHome
  | loginPageWithFlash (msg : String)
  | loginPageNoFlash
deriving DecidableEq, Repr

/-- Model of the login form's declarative validators, lines 70 to 73 of
the web source: data-required and email format on the email field and
data-required on the password field. -/
def loginFormValid (email password : String) : Bool :=
  (!(email == "")) && validEmail email && (!(password == ""))

/-- The login handler, lines 117 to 136 of the web source: look the email
up; when a document was found, check the stored password value against the
submitted password, redirecting home on success and falling through to the
plain re-render on failure; only when the count is zero is the
invalid-credentials flash emitted before re-rendering. -/
def loginFlow (st : StoreState) (email password : String) : LoginOutcome :=
  if loginFormValid email password then
    let result := select_by_email st email
    if result.count != 0 then
      match result.documents with
      | some user =>
        if check_password_hash user.password password then LoginOutcome.redirectHome
        else LoginOutcome.loginPageNoFlash
      | none => LoginOutcome.loginPageNoFlash
    else LoginOutcome.loginPageWithFlash invalidCredMsg
  else LoginOutcome.loginPageNoFlash

/-- The application secret key, set at line 147 of the web source. -/
def SECRET_KEY : String := "test_key"

/-- The password salt for token domain separation, set at line 152 of the
web source. -/
def SECURITY_PASSWORD_SALT : String := "test_salt"

/-- Model of a token of the external timed serializer: a signed token
carries its payload, its issuance time, and, standing in for the
signature, the secret and salt it was signed with, tamper-evidently; any
other byte string is a malformed token. -/
inductive Token where
  | signed (payload : String) (issuedAt : Nat) (secret : String) (salt : String)
  | malformed (raw : String)
deriving DecidableEq, Repr

/-- The failures of the external timed serializer's load operation: a bad
signature on a tampered or malformed token, or an expired timestamp. -/
inductive LoadErr where
  | badSignature
  | expired
deriving DecidableEq, Repr

/-- Model of the timed serializer's dump operation: sign the payload with
the secret and salt at the current time. -/
def dumps (secret salt payload : String) (now : Nat) : Token :=
  Token.signed payload now secret salt

/-- Model of the timed serializer's load operation: the signature verifies
exactly when the token was produced with the same secret and salt, and the
age of the token must not exceed the maximum age. -/
def loads (secret salt : String) (maxAge : Nat) (t : Token) (now : Nat) :
    Except LoadErr String :=
  match t with
  | Token.malformed _ => Except.error LoadErr.badSignature
  | Token.signed payload issuedAt sec sal =>
    if sec == secret && sal == salt then
      if now - issuedAt ≤ maxAge then Except.ok payload
      else Except.error LoadErr.expired
    else Except.error LoadErr.badSignature

/-- Token issuance, lines 76 to 78 of the web source: dump the email with
the application secret key and the password salt. -/
def generate_confirmation_token (email : String) (now : Nat) : Token :=
  dumps SECRET_KEY SECURITY_PASSWORD_SALT email now

/-- Token validation, lines 81 to 91 of the web source: load the token
with the same secret key and salt and the given expiration as maximum
age; the bare except clause maps every failure to a false return, here
the none value, and a success returns the email. -/
def confirm_token (t : Token) (now : Nat) (expiration : Nat) : Option String :=
  match loads SECRET_KEY SECURITY_PASSWORD_SALT expiration t now with
  | Except.ok email => some email
  | Except.error _ => none

/-- Token validation at its default expiration of 3600 seconds, the
default parameter value at line 81 of the web source. -/
def confirm_token0 (t : Token) (now : Nat) : Option String :=
  confirm_token t now 3600

/-- The initial class-level globals: the index-creation flag starts
false. -/
def g0 : Globals := { created_index := false }

/-- The empty store: no documents and no index yet. -/
def st0 : StoreState := { docs := [], indexCreated := false, nextId := 0 }

/-- Store states reachable from the empty store by submit calls, the only
writer in the system; the register flow writes through submit. -/
inductive Reachable : Globals → StoreState → Prop where
  | init : Reachable g0 st0
  | step {g : Globals} {st : StoreState} (u : UserModel) :
      Reachable g st → Reachable (submit g st u).globals (submit g st u).store

/-- The first registration request on the empty store. -/
def reg1 : RegisterResult := registerFlow g0 st0 "a@bcde.com" "secret1" "secret1"

/-- A second registration request with the very same email and password. -/
def reg2 : RegisterResult := registerFlow reg1.globals reg1.store "a@bcde.com" "secret1" "secret1"

/-- The store after the first registration: it holds one account. -/
def sampleStore : StoreState := reg1.store

/-- The user value that the register handler builds for the sample
request, as constructed at lines 99 to 105 of the web source. -/
def regUser0 : UserModel :=
  { email := "a@bcde.com", password := pyStr (generate_password_hash "secret1"),
    is_authenticated := false, is_anonymous := false, is_active := true,
    details := [("confirmed", Value.bool false)] }

/-- The user object that a lookup of the sample email rebuilds from the
store, already marked authenticated by the select operation. -/
def sampleUser : UserModel :=
  { email := "a@bcde.com", password := pyStr (generate_password_hash "secret1"),
    is_authenticated := true, is_anonymous := false, is_active := true,
    details := [("is_anonymous", Value.bool false), ("is_active", Value.bool true),
                ("confirmed", Value.bool false)] }

/-- A second sample user with a distinct email, for exercising repeated
submit calls. -/
def regUserB : UserModel :=
  { email := "b@cdef.com", password := pyStr (generate_password_hash "secret2"),
    is_authenticated := false, is_anonymous := false, is_active := true,
    details := [("confirmed", Value.bool false)] }

/-- Submit never touches the class-level globals: the index-created flag
is read at line 104 of the user-model source but never assigned. -/
theorem submit_globals (g : Globals) (st : StoreState) (u : UserModel) :
    (submit g st u).globals = g := by
  unfold submit
  dsimp only
  split <;> split <;> rfl

/-- The length of one string append in terms of its parts. -/
theorem length_parts (a b : String) : (a ++ b).length = a.length + b.length :=
  String.length_append a b

/-- The hash value the register handler stores is never the plaintext it
came from: the text conversion and the digest prefix add ten characters. -/
theorem pyStr_hash_ne_plain (p : String) : pyStr (generate_password_hash p) ≠ p := by
  intro h
  have hl := congrArg String.length h
  simp only [pyStr, generate_password_hash, bcryptDigest, String.length_append] at hl
  have e1 : ("b" : String).length = 1 := rfl
  have e2 : ("$2b$12$" : String).length = 7 := rfl
  have e3 : (String.singleton (Char.ofNat 39)).length = 1 := rfl
  rw [e1, e2, e3] at hl
  omega

/-- Checking the plaintext against the text-converted stored hash always
fails: the stored value is three characters longer than the digest the
check recomputes, so they can never be equal. -/
theorem check_stored_hash_fails (p : String) :
    check_password_hash (pyStr (generate_password_hash p)) p = false := by
  show (pyStr (generate_password_hash p) == bcryptDigest p) = false
  rw [beq_eq_false_iff_ne]
  intro h
  have hl := congrArg String.length h
  simp only [pyStr, generate_password_hash, bcryptDigest, String.length_append] at hl
  have e1 : ("b" : String).length = 1 := rfl
  have e2 : ("$2b$12$" : String).length = 7 := rfl
  have e3 : (String.singleton (Char.ofNat 39)).length = 1 := rfl
  rw [e1, e2, e3] at hl
  omega

/-- The email field of a freshly flattened record is the user's email:
the record starts with the email pair. -/
theorem docEmail_new (u : UserModel) (x : String × Value) :
    docEmail (_to_dict u ++ [x]) = some (Value.str u.email) := rfl

/-- A submit of a user whose email matches no stored document appends
exactly the flattened record, with the generated object id, to the
store. -/
theorem submit_fresh_docs (g : Globals) (st : StoreState) (u : UserModel)
    (hany : st.docs.any (fun d => docHasEmail d u.email) = false) :
    (submit g st u).store.docs =
      st.docs ++ [_to_dict u ++ [("_id", Value.str (toString st.nextId))]] := by
  unfold submit
  by_cases hg : g.created_index <;> simp [hg, hany]

/-- A submit of a user whose email already occurs in a store with the
unique index leaves the documents unchanged and reports the duplicate-key
error code. -/
theorem submit_dup_docs (g : Globals) (st : StoreState) (u : UserModel)
    (hg : g.created_index = false)
    (hany : st.docs.any (fun d => docHasEmail d u.email) = true) :
    (submit g st u).store.docs = st.docs ∧
    (submit g st u).ret.code = some EXISTING_EMAIL_CODE_ERR := by
  unfold submit
  simp [hg, hany]

/-- Among documents whose email fields are pairwise distinct, at most one
matches any given email. -/
theorem filter_email_length_le_one (email : String) :
    ∀ l : List Doc, (l.map docEmail).Nodup →
      (l.filter (fun d => docHasEmail d email)).length ≤ 1 := by
  intro l
  induction l with
  | nil => intro _; simp
  | cons a t ih =>
    intro h
    rw [List.map_cons, List.nodup_cons] at h
    by_cases hv : docHasEmail a email = true
    · have ht : t.filter (fun d => docHasEmail d email) = [] := by
        rw [List.filter_eq_nil_iff]
        intro x hx hpx
        have hax : docEmail a = some (Value.str email) :=
          of_decide_eq_true (show decide (docEmail a = some (Value.str email)) = true from hv)
        have hxx : docEmail x = some (Value.str email) :=
          of_decide_eq_true
            (show decide (docEmail x = some (Value.str email)) = true from hpx)
        exact h.1 (by rw [hax, ← hxx]; exact List.mem_map_of_mem docEmail hx)
      simp [List.filter_cons, hv, ht]
    · have hv2 : docHasEmail a email = false := by simpa using hv
      have hstep : (a :: t).filter (fun d => docHasEmail d email) =
          t.filter (fun d => docHasEmail d email) := by
        simp [List.filter_cons, hv2]
      rw [hstep]
      exact ih h.2

/-- Every reachable state has the class flag still false and pairwise
distinct email fields in the store: the flag is never assigned, so every
submit ensures the unique index before inserting, and the index rejects
duplicates. -/
theorem reachable_invariant {g : Globals} {st : StoreState} (h : Reachable g st) :
    g.created_index = false ∧ (st.docs.map docEmail).Nodup := by
  induction h with
  | init => exact ⟨rfl, by simp [st0]⟩
  | step u hr ih =>
    obtain ⟨hg, hnd⟩ := ih
    refine ⟨by rw [submit_globals]; exact hg, ?_⟩
    rename_i g1 st1
    by_cases hany : st1.docs.any (fun d => docHasEmail d u.email) = true
    · rw [(submit_dup_docs g1 st1 u hg hany).1]
      exact hnd
    · have hany2 : st1.docs.any (fun d => docHasEmail d u.email) = false := by
        simpa using hany
      rw [submit_fresh_docs g1 st1 u hany2, List.map_append]
      refine List.Nodup.append hnd (by simp) ?_
      intro x hx hx2
      have hx2b : x = some (Value.str u.email) := by
        rw [List.map_singleton, docEmail_new] at hx2
        simpa using hx2
      obtain ⟨d, hd, hdx⟩ := List.mem_map.mp hx
      have := List.any_eq_false.mp hany2 d hd
      rw [docHasEmail] at this
      exact this (decide_eq_true (by rw [hdx, hx2b]))

/-- The count the select operation reports is the number of matching
documents. -/
theorem select_count_eq (st : StoreState) (email : String) :
    (select_by_email st email).count = (foundDocs st email).length := by
  unfold select_by_email
  split
  · rename_i h
    rw [h]
    rfl
  · rename_i d rest h
    rw [h]

/-- After the projection, a document has no id field left to look up. -/
theorem lookup_id_applyProjection (d : Doc) : (applyProjection d).lookup "_id" = none := by
  unfold applyProjection
  induction d with
  | nil => rfl
  | cons kv t ih =>
    obtain ⟨k, v⟩ := kv
    by_cases h : k = "_id"
    · have hp : ((k, v).1 != "_id") = false := by simp [h]
      simp only [List.filter_cons, hp, Bool.false_eq_true, if_false]
      exact ih
    · have hp : ((k, v).1 != "_id") = true := by simp [h]
      have hne : ("_id" == k) = false := beq_eq_false_iff_ne.mpr (Ne.symm h)
      simp only [List.filter_cons, hp, if_true, List.lookup, hne]
      exact ih

/-- Claim C1: the spec says a second registration with an already stored
email fails with a duplicate-email error surfaced on the email field.  On
the code, the second registration is reported exactly like the first, a
success redirect: the proactive lookup in the form validation passes
because it only inspects the error code of a failed lookup, while a found
email yields a successful lookup; and the register handler discards the
failed submit, whose return does carry the duplicate-key code.  Only the
exactly-one-stored-account part of the claim holds. -/
theorem register_duplicate_email_reported_success :
    reg1.outcome = RegOutcome.redirectHome ∧
    (formValidate reg1.store "a@bcde.com" "secret1" "secret1").1 = true ∧
    reg2.outcome = RegOutcome.redirectHome ∧
    (foundDocs reg2.store "a@bcde.com").length = 1 ∧
    (submit reg1.globals reg1.store regUser0).ret.code = some EXISTING_EMAIL_CODE_ERR := by
  decide

/-- Claim C2: the bcrypt primitive itself round-trips, and verifying a
stored digest against its own plaintext succeeds; but the register
handler stores the text conversion of the hash bytes, against which the
check of the original password always fails, so logging in with the
registration credentials does not authenticate.  The fixme comment at
line 127 of the web source acknowledges the broken hashing. -/
theorem password_hash_roundtrip_broken :
    (∀ p : String, check_password_hash (bcryptDigest p) p = true ∧
        check_password_hash (pyStr (generate_password_hash p)) p = false) ∧
    loginFlow sampleStore "a@bcde.com" "secret1" = LoginOutcome.loginPageNoFlash := by
  refine ⟨fun p => ⟨?_, check_stored_hash_fails p⟩, by decide⟩
  simp [check_password_hash]

/-- Claim C3 counterexample: with one registered account, a login attempt
with an unknown email and one with the registered email but a wrong
password produce different user-visible outcomes: the unknown email
flashes the invalid-credentials message while the wrong password
re-renders the login page with no flash at all, refuting the claim that
the two failure paths are indistinguishable. -/
theorem login_failure_paths_differ_cex :
    loginFlow sampleStore "zz@zz.zz" "wrong99" = LoginOutcome.loginPageWithFlash invalidCredMsg ∧
    loginFlow sampleStore "a@bcde.com" "wrong99" = LoginOutcome.loginPageNoFlash ∧
    loginFlow sampleStore "zz@zz.zz" "wrong99" ≠ loginFlow sampleStore "a@bcde.com" "wrong99" := by
  decide

/-- Claim C3 amended: on a valid login form, both failure paths re-render
the login page and neither authenticates, but they are distinguishable: a
non-existent email flashes the invalid-credentials message, while an
existing email with a wrong password re-renders the page without any
flash. -/
theorem login_failure_paths_amended (st : StoreState) (email password : String)
    (hform : loginFormValid email password = true) :
    (foundDocs st email = [] →
        loginFlow st email password = LoginOutcome.loginPageWithFlash invalidCredMsg) ∧
    (∀ u : UserModel, (select_by_email st email).documents = some u →
        check_password_hash u.password password = false →
        loginFlow st email password = LoginOutcome.loginPageNoFlash) := by
  constructor
  · intro hnil
    have hsel0 : select_by_email st email =
        { success := true, count := 0, code := none, message := none, documents := none } := by
      unfold select_by_email
      rw [hnil]
    unfold loginFlow
    rw [hform, hsel0]
    simp
  · intro u hdoc hchk
    rcases hfd : foundDocs st email with _ | ⟨d, rest⟩
    · exfalso
      have hsel0 : select_by_email st email =
          { success := true, count := 0, code := none, message := none, documents := none } := by
        unfold select_by_email
        rw [hfd]
      rw [hsel0] at hdoc
      simp at hdoc
    · have hsel : select_by_email st email =
          { success := true, count := (d :: rest).length, code := none, message := none,
            documents := some { userFromDoc d with is_authenticated := true } } := by
        unfold select_by_email
        rw [hfd]
      rw [hsel] at hdoc
      have hu := Option.some_inj.mp hdoc
      unfold loginFlow
      rw [hform, hsel]
      have hp : (userFromDoc d).password = u.password := by rw [← hu]
      simp [hu, hchk, hp]

/-- Claim C4: a confirmation token issued for an email validates within
the expiration window under the same secret and salt and yields exactly
that email: shown for the underlying serializer with an arbitrary secret
and salt, and for the application's issue and confirm pair. -/
theorem confirmation_token_roundtrip (secret salt email : String)
    (issuedAt now expiration : Nat) (h : now ≤ issuedAt + expiration) :
    loads secret salt expiration (dumps secret salt email issuedAt) now = Except.ok email ∧
    confirm_token (generate_confirmation_token email issuedAt) now expiration = some email := by
  have hage : now - issuedAt ≤ expiration := by omega
  constructor
  · simp [loads, dumps, hage]
  · simp [confirm_token, generate_confirmation_token, loads, dumps, hage]

/-- Witness for claim C4 at a concrete token. -/
theorem confirmation_token_roundtrip_witness :
    (100 ≤ 0 + 3600) ∧
    (loads "k1" "s1" 3600 (dumps "k1" "s1" "a@b.com" 0) 100 = Except.ok "a@b.com" ∧
     confirm_token (generate_confirmation_token "a@b.com" 0) 100 3600 = some "a@b.com") :=
  ⟨by decide, confirmation_token_roundtrip "k1" "s1" "a@b.com" 0 100 3600 (by decide)⟩

/-- Claim C5: token validation is total and yields the none failure value
for every token that is not a well-signed unexpired token under the
current secret and salt, so malformed, tampered and expired tokens all
come back as a returned failure, never as an uncaught fault; and the
default expiration window is 3600 seconds from issuance. -/
theorem confirm_token_total_and_default :
    (∀ (t : Token) (now expiration : Nat),
        confirm_token t now expiration = none ∨
        ∃ email issuedAt, t = Token.signed email issuedAt SECRET_KEY SECURITY_PASSWORD_SALT ∧
          now - issuedAt ≤ expiration ∧ confirm_token t now expiration = some email) ∧
    (∀ (t : Token) (now : Nat), confirm_token0 t now = confirm_token t now 3600) := by
  constructor
  · intro t now expiration
    cases t with
    | malformed raw => exact Or.inl rfl
    | signed payload issuedAt sec sal =>
      by_cases hs : sec = SECRET_KEY ∧ sal = SECURITY_PASSWORD_SALT
      · obtain ⟨h1, h2⟩ := hs
        subst h1
        subst h2
        by_cases ha : now - issuedAt ≤ expiration
        · exact Or.inr ⟨payload, issuedAt, rfl, ha, by simp [confirm_token, loads, ha]⟩
        · exact Or.inl (by simp [confirm_token, loads, ha])
      · refine Or.inl ?_
        have hb : (sec == SECRET_KEY && sal == SECURITY_PASSWORD_SALT) = false := by
          rcases not_and_or.mp hs with h | h
          · simp [beq_eq_false_iff_ne.mpr h]
          · simp [beq_eq_false_iff_ne.mpr h]
        simp [confirm_token, loads, hb]
  · intro t now
    rfl

/-- Claim C8: the spec says only the first insert creates the index and
the flag is then set.  On the code, the class flag is never assigned: the
globals pass through every submit unchanged, the flag is still false
after the first call, and the second call performs the index-creation
side effect again.  The no-other-global-state part does hold. -/
theorem submit_creates_index_every_call :
    (∀ (g : Globals) (st : StoreState) (u : UserModel), (submit g st u).globals = g) ∧
    (submit g0 st0 regUser0).calledCreateIndex = true ∧
    (submit g0 st0 regUser0).globals.created_index = false ∧
    (submit (submit g0 st0 regUser0).globals (submit g0 st0 regUser0).store
        regUserB).calledCreateIndex = true :=
  ⟨submit_globals, by decide, by decide, by decide⟩

/-- Claim C10: whenever a lookup by email returns a user object, that
object's authentication flag is true, set by the lookup itself before and
independently of any password verification. -/
theorem lookup_marks_authenticated (st : StoreState) (email : String) (u : UserModel)
    (h : (select_by_email st email).documents = some u) : u.is_authenticated = true := by
  revert h
  unfold select_by_email
  split
  · intro h
    simp at h
  · intro h
    have he := Option.some_inj.mp h
    rw [← he]

/-- Witness for claim C10 at the sample store. -/
theorem lookup_marks_authenticated_witness :
    (select_by_email sampleStore "a@bcde.com").documents = some sampleUser ∧
    sampleUser.is_authenticated = true :=
  ⟨by decide, lookup_marks_authenticated sampleStore "a@bcde.com" sampleUser (by decide)⟩

/-- Claim C9 counterexample: the record persisted for a registration also
carries the authentication, anonymity and activity flags besides email,
password, confirmed and the details, refuting the claimed exact record
shape; shown on the concrete register-built user, whose flattened record
contains the is-authenticated field, which is neither email, password,
confirmed, nor one of its details. -/
theorem persisted_shape_extra_fields_cex :
    ("is_authenticated", Value.bool false) ∈ _to_dict regUser0 ∧
    regUser0.details.lookup "is_authenticated" = none ∧
    ¬ ("is_authenticated" ∈ (["email", "password", "confirmed"] : List String)) := by
  decide

/-- Claim C9 amended: every persisted record has exactly the shape email,
password, is-authenticated, is-anonymous, is-active followed by the
flattened details, which include confirmed for registered users; and no
id field is ever returned to callers by lookup, because the projection
excludes it. -/
theorem persisted_shape_amended :
    (∀ u : UserModel, (_to_dict u).map Prod.fst =
        ["email", "password", "is_authenticated", "is_anonymous", "is_active"] ++
          u.details.map Prod.fst) ∧
    (∀ (st : StoreState) (email : String) (d : Doc),
        d ∈ foundDocs st email → d.lookup "_id" = none) := by
  constructor
  · intro u
    simp [_to_dict]
  · intro st email d hd
    unfold foundDocs _cursor_helper at hd
    obtain ⟨x, hx, hxd⟩ := List.mem_map.mp hd
    have hx2 : x = d := hxd
    obtain ⟨y, hy, hyx⟩ := List.mem_map.mp hx
    rw [← hx2, ← hyx]
    exact lookup_id_applyProjection y

/-- Witness for the amended claim C9 at the sample store. -/
theorem persisted_shape_amended_witness :
    ((_to_dict regUser0).map Prod.fst =
        ["email", "password", "is_authenticated", "is_anonymous", "is_active"] ++
          regUser0.details.map Prod.fst) ∧
    _to_dict regUser0 ∈ foundDocs sampleStore "a@bcde.com" ∧
    (_to_dict regUser0).lookup "_id" = none :=
  ⟨persisted_shape_amended.1 regUser0, by decide,
   persisted_shape_amended.2 sampleStore "a@bcde.com" (_to_dict regUser0) (by decide)⟩

/-- Claim C7: in every reachable store state, a lookup by email finds at
most one matching document, the assertion guarded at line 146 of the
user-model source holds, and the reported count is at most one. -/
theorem select_by_email_at_most_one (g : Globals) (st : StoreState)
    (h : Reachable g st) (email : String) :
    (foundDocs st email).length ≤ 1 ∧ select_assertion st email = true ∧
    (select_by_email st email).count ≤ 1 := by
  have hnd := (reachable_invariant h).2
  have hlen : (foundDocs st email).length ≤ 1 := by
    unfold foundDocs _cursor_helper
    rw [List.length_map, List.length_map]
    exact filter_email_length_le_one email st.docs hnd
  refine ⟨hlen, ?_, ?_⟩
  · unfold select_assertion
    rw [decide_eq_true_eq]
    omega
  · rw [select_count_eq]
    exact hlen

/-- Witness for claim C7 at the initial reachable state. -/
theorem select_by_email_at_most_one_witness :
    (foundDocs st0 "a@bcde.com").length ≤ 1 ∧ select_assertion st0 "a@bcde.com" = true ∧
    (select_by_email st0 "a@bcde.com").count ≤ 1 :=
  select_by_email_at_most_one g0 st0 Reachable.init "a@bcde.com"

/-- Witness for the amended claim C3 at the sample store. -/
theorem login_failure_paths_amended_witness :
    loginFlow sampleStore "zz@zz.zz" "wrong99" = LoginOutcome.loginPageWithFlash invalidCredMsg ∧
    loginFlow sampleStore "a@bcde.com" "wrong99" = LoginOutcome.loginPageNoFlash :=
  ⟨(login_failure_paths_amended sampleStore "zz@zz.zz" "wrong99" (by decide)).1 (by decide),
   (login_failure_paths_amended sampleStore "a@bcde.com" "wrong99" (by decide)).2 sampleUser
     (by decide) (by decide)⟩

/-- Claim C6: registering a fresh valid email succeeds, and a subsequent
lookup by that email returns exactly one account whose confirmed detail
is false and whose stored password field is the converted hash, which is
never equal to the plaintext password. -/
theorem register_fresh_email_success (g : Globals) (st : StoreState)
    (email password : String)
    (hfresh : foundDocs st email = [])
    (hval : initialValidation email password password = true) :
    (registerFlow g st email password password).outcome = RegOutcome.redirectHome ∧
    (select_by_email (registerFlow g st email password password).store email).count = 1 ∧
    ∃ u : UserModel,
      (select_by_email (registerFlow g st email password password).store email).documents =
          some u ∧
      u.details.lookup "confirmed" = some (Value.bool false) ∧
      u.password = pyStr (generate_password_hash password) ∧
      u.password ≠ password := by
  have hfilter : st.docs.filter (fun d => docHasEmail d email) = [] := by
    have h1 := hfresh
    unfold foundDocs _cursor_helper at h1
    rw [List.map_eq_nil_iff, List.map_eq_nil_iff] at h1
    exact h1
  have hany : (st.docs.any fun d => docHasEmail d email) = false := by
    rw [List.any_eq_false]
    intro d hd
    exact List.filter_eq_nil_iff.mp hfilter d hd
  have hsel0 : select_by_email st email =
      { success := true, count := 0, code := none, message := none, documents := none } := by
    unfold select_by_email
    rw [hfresh]
  have hform : formValidate st email password password = (true, []) := by
    unfold formValidate
    rw [hval, hsel0]
    rfl
  set uR : UserModel :=
    { email := email, password := pyStr (generate_password_hash password),
      is_authenticated := false, is_anonymous := false, is_active := true,
      details := [("confirmed", Value.bool false)] } with huR
  have hregf : registerFlow g st email password password =
      { globals := (submit g st uR).globals, store := (submit g st uR).store,
        outcome := RegOutcome.redirectHome } := by
    unfold registerFlow
    rw [hform]
    rfl
  have hanyR : (st.docs.any fun d => docHasEmail d uR.email) = false := hany
  have hdocs : (submit g st uR).store.docs =
      st.docs ++ [_to_dict uR ++ [("_id", Value.str (toString st.nextId))]] :=
    submit_fresh_docs g st uR hanyR
  have hmatch : docHasEmail (_to_dict uR ++ [("_id", Value.str (toString st.nextId))]) email
      = true := by
    rw [docHasEmail]
    exact decide_eq_true (docEmail_new uR _)
  have hfound : foundDocs (submit g st uR).store email = [_to_dict uR] := by
    unfold foundDocs _cursor_helper
    rw [hdocs, List.filter_append, hfilter]
    simp only [List.filter_cons, hmatch, if_true, List.filter_nil, List.nil_append,
      List.map_cons, List.map_nil]
    rfl
  have hselR : select_by_email (submit g st uR).store email =
      { success := true, count := 1, code := none, message := none,
        documents := some { userFromDoc (_to_dict uR) with is_authenticated := true } } := by
    unfold select_by_email
    rw [hfound]
    rfl
  rw [hregf]
  dsimp only
  refine ⟨rfl, ?_, ?_⟩
  · rw [hselR]
  · refine ⟨{ userFromDoc (_to_dict uR) with is_authenticated := true }, ?_, ?_, ?_, ?_⟩
    · rw [hselR]
    · rfl
    · rfl
    · have hpw : ({ userFromDoc (_to_dict uR) with is_authenticated := true }).password =
          pyStr (generate_password_hash password) := rfl
      rw [hpw]
      exact pyStr_hash_ne_plain password

/-- Witness for claim C6 on the empty store with the sample email and
password. -/
theorem register_fresh_email_success_witness :
    (foundDocs st0 "a@bcde.com" = [] ∧
      initialValidation "a@bcde.com" "secret1" "secret1" = true) ∧
    ((registerFlow g0 st0 "a@bcde.com" "secret1" "secret1").outcome = RegOutcome.redirectHome ∧
     (select_by_email (registerFlow g0 st0 "a@bcde.com" "secret1" "secret1").store
        "a@bcde.com").count = 1 ∧
     ∃ u : UserModel,
       (select_by_email (registerFlow g0 st0 "a@bcde.com" "secret1" "secret1").store
          "a@bcde.com").documents = some u ∧
       u.details.lookup "confirmed" = some (Value.bool false) ∧
       u.password = pyStr (generate_password_hash "secret1") ∧
       u.password ≠ "secret1") :=
  ⟨⟨rfl, by decide⟩,
   register_fresh_email_success g0 st0 "a@bcde.com" "secret1" rfl (by decide)⟩
